import Mathlib

/-!
Formal model of the Terratech Neighbourhood Sustainability Index frontend
(Unihack x BCU), as a shallow embedding of the JavaScript in
`src/pages/BaselineDashboard.jsx`, `src/App.jsx` and
`src/hooks/useBaselineData.js`. Numbers are rationals; a nullable numeric
field is an `Option ℚ`; JavaScript coercion of `null` in arithmetic is the
explicit `toNumber`. Strings that the code only displays (CSS colors, band
labels) are kept verbatim.
-/

namespace NSI

/-- JavaScript `ToNumber` applied to a possibly-null numeric field: in an
arithmetic context (`x + y`, `b.score - a.score`) `null` coerces to `0`.
This is the coercion the dashboard code hits whenever it does arithmetic on
a nullable score without checking it first. -/
def toNumber : Option ℚ → ℚ
  | none => 0
  | some x => x

/-! ## BaselineDashboard.jsx: band ladder, formatting, colors -/

/-- One entry of the `BANDS` table of `BaselineDashboard.jsx`. -/
structure Band where
  min : ℚ
  label : String
  color : String
  textColor : String
deriving DecidableEq

/-- The `BANDS` threshold ladder of `BaselineDashboard.jsx` (lines 83-110),
in source order: first match wins in `getBand`. -/
def BANDS : List Band :=
  [ ⟨85, "Excellent", "#10b981", "text-emerald-400"⟩,
    ⟨75, "Very Good", "#22c55e", "text-green-400"⟩,
    ⟨65, "Good", "#84cc16", "text-lime-400"⟩,
    ⟨55, "Moderate", "#eab308", "text-yellow-400"⟩,
    ⟨45, "Elevated Risk", "#f97316", "text-orange-400"⟩,
    ⟨0, "High Risk", "#ef4444", "text-red-400"⟩ ]

/-- `getBand` (BaselineDashboard.jsx lines 112-115): `null`/`NaN` give no
band, otherwise the first `BANDS` entry whose `min` the score reaches
(`BANDS.find(b => score >= b.min) || null`). -/
def getBand (score : Option ℚ) : Option Band :=
  match score with
  | none => none
  | some s => BANDS.find? fun b => decide (b.min ≤ s)

/-- `Number.prototype.toFixed` on a rational: round to `d` decimal places
(a tie picks the larger value, as the ECMAScript algorithm does) and print
with exactly `d` fractional digits. -/
def toFixed (x : ℚ) (d : ℕ) : String :=
  let n : ℤ := ⌊x * 10 ^ d + 1 / 2⌋
  let sign := if n < 0 then "-" else ""
  let a := n.natAbs
  let ip := a / 10 ^ d
  let fp := a % 10 ^ d
  if d = 0 then sign ++ toString ip
  else
    let digits := toString fp
    sign ++ toString ip ++ "." ++
      String.mk (List.replicate (d - digits.length) '0') ++ digits

/-- `format` (BaselineDashboard.jsx lines 117-118): `null`/`NaN` render as
an en dash, a number as `n.toFixed(d)`. -/
def format (n : Option ℚ) (d : ℕ) : String :=
  match n with
  | none => "–"
  | some x => toFixed x d

/-- A CSS color as the dashboard builds it: either a hex literal or an
`hsl(hue, saturation%, lightness%)` triple. -/
inductive CssColor where
  | hex (code : String)
  | hsl (hue saturation lightness : ℚ)
deriving DecidableEq

/-- `getColor` (BaselineDashboard.jsx lines 124-129): the sentinel
`"#020617"` for `null`/`NaN`, otherwise the score is clamped into
`[0, 100]` and mapped onto the red-to-green hue ramp
`hsl((s/100)*120, 75%, 45%)`. -/
def getColor (score : Option ℚ) : CssColor :=
  match score with
  | none => CssColor.hex "#020617"
  | some score =>
    let s := max 0 (min 100 score)
    CssColor.hsl (s / 100 * 120) 75 45

/-! ## BaselineDashboard.jsx: the district record and derived views -/

/-- One component entry of a district record (`components.air` etc.): the
fields the dashboard logic reads. Any field may be null. -/
structure ComponentResult where
  score : Option ℚ
  band : Option String
deriving DecidableEq

/-- The three components of a district record. -/
structure Components where
  air : ComponentResult
  noise : ComponentResult
  greenspace : ComponentResult
deriving DecidableEq

/-- The confidence block of a district record. -/
structure Confidence where
  level : String
  postcode_count : Option ℕ
deriving DecidableEq

/-- A baseline district record as the dashboard consumes it. -/
structure DistrictRecord where
  district : String
  score_overall : Option ℚ
  score_band : Option String
  components : Components
  confidence : Confidence
deriving DecidableEq

/-- `validDistricts` (BaselineDashboard.jsx lines 189-192): the records
whose `score_overall` is non-null. -/
def validDistricts (enrichedData : List DistrictRecord) : List DistrictRecord :=
  enrichedData.filter fun d => d.score_overall.isSome

/-- The value of the `cityStats` memo. -/
structure CityStats where
  avg : ℚ
  best : DistrictRecord
  worst : DistrictRecord
deriving DecidableEq

/-- `cityStats` (BaselineDashboard.jsx lines 199-210): `null` when no
district has a score; otherwise the mean of the valid overall scores and
the best/worst record by descending/ascending `score_overall` sort. -/
def cityStats (enrichedData : List DistrictRecord) : Option CityStats :=
  match validDistricts enrichedData with
  | [] => none
  | d0 :: _ =>
    let vd := validDistricts enrichedData
    let scores := vd.map fun d => toNumber d.score_overall
    let avg := scores.sum / (scores.length : ℚ)
    let best :=
      (vd.mergeSort fun a b =>
        decide (toNumber b.score_overall ≤ toNumber a.score_overall)).headD d0
    let worst :=
      (vd.mergeSort fun a b =>
        decide (toNumber a.score_overall ≤ toNumber b.score_overall)).headD d0
    some ⟨avg, best, worst⟩

/-- `sortedDistricts` (BaselineDashboard.jsx lines 229-233): every record,
sorted by district code. -/
def sortedDistricts (enrichedData : List DistrictRecord) : List DistrictRecord :=
  enrichedData.mergeSort fun a b => decide (a.district ≤ b.district)

/-- The three what-if slider deltas (`whatIf` state, each slider ranges
over `[-20, 20]`). -/
structure WhatIf where
  air : ℚ
  noise : ℚ
  greenspace : ℚ
deriving DecidableEq

/-- `whatIfScore` (BaselineDashboard.jsx lines 212-227): `null` with no
selection; otherwise each component score plus its delta, clamped into
`[0, 100]` by `Math.min(100, Math.max(0, …))`, averaged by `/ 3`. A null
component score passes through JavaScript `+` and coerces to `0`
(`toNumber`). -/
def whatIfScore (selectedData : Option DistrictRecord) (whatIf : WhatIf) : Option ℚ :=
  match selectedData with
  | none => none
  | some d =>
    let newAir := min 100 (max 0 (toNumber d.components.air.score + whatIf.air))
    let newNoise := min 100 (max 0 (toNumber d.components.noise.score + whatIf.noise))
    let newGreen :=
      min 100 (max 0 (toNumber d.components.greenspace.score + whatIf.greenspace))
    some ((newAir + newNoise + newGreen) / 3)

/-- One row of the radar chart data. -/
structure RadarRow where
  metric : String
  current : Option ℚ
  whatif : ℚ
deriving DecidableEq

/-- `radarData` (BaselineDashboard.jsx lines 269-294): the three metrics,
each with the current score and the projected value
`Math.min(100, score + delta)` — clamped above only. A null current score
coerces to `0` inside the `+` (`toNumber`). -/
def radarData (selectedData : Option DistrictRecord) (whatIf : WhatIf) : List RadarRow :=
  match selectedData with
  | none => []
  | some d =>
    [ ⟨"Air Quality", d.components.air.score,
        min 100 (toNumber d.components.air.score + whatIf.air)⟩,
      ⟨"Noise Levels", d.components.noise.score,
        min 100 (toNumber d.components.noise.score + whatIf.noise)⟩,
      ⟨"Green Space", d.components.greenspace.score,
        min 100 (toNumber d.components.greenspace.score + whatIf.greenspace)⟩ ]

/-- `toggleCompare` (BaselineDashboard.jsx lines 254-263): ignore the
selected district; remove a district already chosen; refuse a fifth
district; otherwise append. -/
def toggleCompare (selected : Option String) (prev : List String)
    (districtCode : String) : List String :=
  if some districtCode = selected then prev
  else if prev.contains districtCode then prev.filter fun x => !(x == districtCode)
  else if 4 ≤ prev.length then prev
  else prev ++ [districtCode]

/-- The four display modes (`MODES`). -/
inductive Mode where
  | overall
  | air
  | noise
  | greenspace
deriving DecidableEq

/-- The district lookup the GeoJSON callbacks run:
`enrichedData.find(x => x.district === feature.properties.postcode)`. -/
def findDistrict (enrichedData : List DistrictRecord) (postcode : String) :
    Option DistrictRecord :=
  enrichedData.find? fun x => x.district == postcode

/-- The score the map style reads for a feature:
`mode === "overall" ? d?.score_overall : d?.components?.[mode]?.score`,
where a missing district makes every branch `undefined`. -/
def modeScore (mode : Mode) (d : Option DistrictRecord) : Option ℚ :=
  match d with
  | none => none
  | some d =>
    match mode with
    | Mode.overall => d.score_overall
    | Mode.air => d.components.air.score
    | Mode.noise => d.components.noise.score
    | Mode.greenspace => d.components.greenspace.score

/-- The `fillColor` of the GeoJSON style callback (BaselineDashboard.jsx
lines 446-462): `getColor` of the mode score of the matching district. -/
def geoFillColor (enrichedData : List DistrictRecord) (postcode : String)
    (mode : Mode) : CssColor :=
  getColor (modeScore mode (findDistrict enrichedData postcode))

/-- The derived values the search dropdown renders per district
(BaselineDashboard.jsx lines 398-425): the band text color of the overall
score and `format(score_overall, 0)`. -/
def searchResultView (d : DistrictRecord) : Option String × String :=
  ((getBand d.score_overall).map Band.textColor, format d.score_overall 0)

/-- One full rendering pass of the score-derived values over a baseline:
each district's search view and map fill color in overall mode. -/
def renderPass (enrichedData : List DistrictRecord) :
    List (Option String × String × CssColor) :=
  enrichedData.map fun d =>
    (Prod.fst (searchResultView d), Prod.snd (searchResultView d),
      getColor d.score_overall)

/-! ## App.jsx: the legacy view -/

/-- An entry of the legacy baseline (`birmingham_baseline.json`) as
`App.jsx` reads it. -/
structure Area where
  postcode : String
  area : String
  score : Option ℚ
  air : Option ℚ
  noise : Option ℚ
  green : Option ℚ
deriving DecidableEq

/-- JavaScript `Math.round`: half rounds up (toward positive infinity). -/
def jsRound (x : ℚ) : ℤ := ⌊x + 1 / 2⌋

/-- The value of the best/worst/average memo of `App.jsx`. -/
structure AppStats where
  best : Option Area
  worst : Option Area
  avgScore : ℤ
deriving DecidableEq

/-- The best/worst/average memo (App.jsx lines 88-98): with no areas,
nulls and average `0`; otherwise sort by descending `score` (a null score
coercing to `0` in the comparator), take the first and last, and
`Math.round` the mean of the scores over ALL areas (a null score again
coercing to `0` in the sum). -/
def appStats (areas : List Area) : AppStats :=
  match areas with
  | [] => ⟨none, none, 0⟩
  | _ :: _ =>
    let sorted := areas.mergeSort fun a b => decide (toNumber b.score ≤ toNumber a.score)
    ⟨sorted.head?, sorted.getLast?,
      jsRound ((areas.map fun a => toNumber a.score).sum / (areas.length : ℚ))⟩

/-- The config record `getScoreConfig` returns. -/
structure ScoreConfig where
  label : String
  health : String
  color : String
  riskLevel : String
deriving DecidableEq

/-- `SCORE_THRESHOLDS` (App.jsx lines 7-11). -/
structure Thresholds where
  EXCELLENT : ℚ
  HEALTHY : ℚ
  MODERATE : ℚ
deriving DecidableEq

/-- The legacy view's thresholds: 80 / 60 / 45. -/
def SCORE_THRESHOLDS : Thresholds := ⟨80, 60, 45⟩

/-- `SCORE_CONFIG[SCORE_THRESHOLDS.EXCELLENT]` (App.jsx lines 14-20). -/
def SCORE_CONFIG_EXCELLENT : ScoreConfig :=
  ⟨"Low environmental health risk",
    "Cleaner air, quieter surroundings, and strong mental health support from green space.",
    "#16a34a", "Low"⟩

/-- `SCORE_CONFIG[SCORE_THRESHOLDS.HEALTHY]` (App.jsx lines 21-27). -/
def SCORE_CONFIG_HEALTHY : ScoreConfig :=
  ⟨"Mild environmental health risk",
    "Some exposure-related concerns for respiratory and stress-related conditions.",
    "#ca8a04", "Mild"⟩

/-- `SCORE_CONFIG[SCORE_THRESHOLDS.MODERATE]` (App.jsx lines 28-34). -/
def SCORE_CONFIG_MODERATE : ScoreConfig :=
  ⟨"Moderate environmental health risk",
    "Elevated long-term risk of asthma, cardiovascular strain, and chronic noise-related stress.",
    "#ea580c", "Moderate"⟩

/-- `DEFAULT_SCORE_CONFIG` (App.jsx lines 37-43). -/
def DEFAULT_SCORE_CONFIG : ScoreConfig :=
  ⟨"High environmental health risk",
    "Significant long-term population health risk, including respiratory disease, heart disease, and mental health strain.",
    "#dc2626", "High"⟩

/-- `getScoreConfig` (App.jsx lines 49-57): the 80 / 60 / 45 ladder of the
legacy view. -/
def getScoreConfig (score : ℚ) : ScoreConfig :=
  if SCORE_THRESHOLDS.EXCELLENT ≤ score then SCORE_CONFIG_EXCELLENT
  else if SCORE_THRESHOLDS.HEALTHY ≤ score then SCORE_CONFIG_HEALTHY
  else if SCORE_THRESHOLDS.MODERATE ≤ score then SCORE_CONFIG_MODERATE
  else DEFAULT_SCORE_CONFIG

/-- `getMapColor` (App.jsx lines 264-272): the legacy map ladder, with an
extra cut at 35 below the dashboard's lowest threshold. -/
def getMapColor (score : ℚ) : String :=
  if 85 ≤ score then "#14532d"
  else if 75 ≤ score then "#16a34a"
  else if 65 ≤ score then "#4ade80"
  else if 55 ≤ score then "#facc15"
  else if 45 ≤ score then "#fb923c"
  else if 35 ≤ score then "#f97316"
  else "#dc2626"

/-! ## useBaselineData.js: the loading hook -/

/-- The JSON body a successful fetch parses: `Array.isArray(json)`
distinguishes an array of records from anything else. -/
inductive JsonBody where
  | array (records : List DistrictRecord)
  | notArray
deriving DecidableEq

/-- The outcome of the fetch inside `useBaselineData`: the network request
rejecting, a non-ok HTTP status (thrown as an error), `res.json()`
rejecting, or a parsed body. -/
inductive FetchOutcome where
  | netError (message : String)
  | httpError (status : ℕ)
  | parseError (message : String)
  | body (json : JsonBody)
deriving DecidableEq

/-- The state triple `useBaselineData` returns. -/
structure HookState where
  data : List DistrictRecord
  loading : Bool
  error : Option String
deriving DecidableEq

/-- `useBaselineData` (useBaselineData.js lines 8-39) as a function of the
fetch outcome, in the un-cancelled run: every path ends with
`loading = false`; a thrown error keeps the initial `[]` data and stores
the error; a parsed body stores the records when it is an array and `[]`
otherwise. -/
def useBaselineData : FetchOutcome → HookState
  | FetchOutcome.netError m => ⟨[], false, some m⟩
  | FetchOutcome.httpError status =>
      ⟨[], false, some ("Failed to load baseline (" ++ toString status ++ ")")⟩
  | FetchOutcome.parseError m => ⟨[], false, some m⟩
  | FetchOutcome.body (JsonBody.array records) => ⟨records, false, none⟩
  | FetchOutcome.body JsonBody.notArray => ⟨[], false, none⟩

/-! ## Sample records used by concrete evaluations -/

/-- A record with the composite `0.4·air + 0.3·noise + 0.3·greenspace`
equal to `40`: air 100, noise 0, greenspace 0. -/
def dC2 : DistrictRecord :=
  ⟨"B02", some 40, some "Elevated Risk",
    ⟨⟨some 100, some "Excellent"⟩, ⟨some 0, some "High Risk"⟩,
      ⟨some 0, some "High Risk"⟩⟩, ⟨"high", some 100⟩⟩

/-- A record whose air component score is null (no coverage), with noise 60
and greenspace 90. -/
def dC5 : DistrictRecord :=
  ⟨"B05", none, none,
    ⟨⟨none, none⟩, ⟨some 60, none⟩, ⟨some 90, none⟩⟩, ⟨"low", some 3⟩⟩

/-- A record with every component in `[0, 100]` and greenspace exactly 0. -/
def dC6 : DistrictRecord :=
  ⟨"B06", some 35, some "High Risk",
    ⟨⟨some 50, none⟩, ⟨some 50, none⟩, ⟨some 0, none⟩⟩, ⟨"medium", some 20⟩⟩

/-- A legacy-view area with a null score. -/
def nullArea : Area := ⟨"B90", "Nulltown", none, none, none, none⟩

/-- A legacy-view area with score 80. -/
def scoredArea : Area := ⟨"B91", "Scoredton", some 80, some 70, some 80, some 90⟩

/-- A dashboard record with a null overall score. -/
def dNull : DistrictRecord :=
  ⟨"B99", none, none, ⟨⟨none, none⟩, ⟨none, none⟩, ⟨none, none⟩⟩,
    ⟨"very_low", some 0⟩⟩

/-- A dashboard record with overall score 61. -/
def dOk : DistrictRecord :=
  ⟨"B01", some 61, some "Moderate",
    ⟨⟨some 58, none⟩, ⟨some 64, none⟩, ⟨some 70, none⟩⟩, ⟨"high", some 842⟩⟩

/-- A record for the determinism witness. -/
def dC8 : DistrictRecord :=
  ⟨"B08", some 77, some "Very Good",
    ⟨⟨some 80, none⟩, ⟨some 75, none⟩, ⟨some 75, none⟩⟩, ⟨"high", some 400⟩⟩

/-! ## C1: the getBand threshold ladder -/

/-- Claim C1, counterexample: a negative score is a non-null numeric score,
yet `getBand` returns no band at all for it (the lowest `BANDS` entry has
`min: 0`, so `find` misses and `|| null` yields null) instead of the
"High Risk" band the claim promises for "any other score". -/
theorem getBand_negative_score :
    getBand (some (-1)) = none ∧
    ¬ ((getBand (some (-1))).map Band.label = some "High Risk") := by
  constructor
  · decide
  · decide

/-- Claim C1, amended: for every non-negative score the ladder behaves
exactly as claimed — first match wins on the descending thresholds
85, 75, 65, 55, 45, and every remaining (non-negative) score is
"High Risk". -/
theorem getBand_ladder_nonneg (s : ℚ) (h : 0 ≤ s) :
    (getBand (some s)).map Band.label =
      some (if 85 ≤ s then "Excellent"
        else if 75 ≤ s then "Very Good"
        else if 65 ≤ s then "Good"
        else if 55 ≤ s then "Moderate"
        else if 45 ≤ s then "Elevated Risk"
        else "High Risk") := by
  by_cases h85 : (85:ℚ) ≤ s <;> by_cases h75 : (75:ℚ) ≤ s <;>
    by_cases h65 : (65:ℚ) ≤ s <;> by_cases h55 : (55:ℚ) ≤ s <;>
    by_cases h45 : (45:ℚ) ≤ s <;>
    simp [getBand, BANDS, List.find?, h85, h75, h65, h55, h45, h]

/-- Claim C1, witness: 84.999 is non-negative and lands in "Very Good",
one notch below the 85 cut. -/
theorem getBand_ladder_nonneg_witness :
    (getBand (some (84999 / 1000))).map Band.label = some "Very Good" := by
  have h := getBand_ladder_nonneg (84999 / 1000) (by norm_num)
  norm_num at h ⊢
  exact h

/-! ## C2: the what-if projection does not reproduce the composite -/

/-- Claim C2, code bug: with every slider at zero, `whatIfScore` averages
the three clamped component scores with equal weights (`/ 3`), not the
documented composite `0.4·air + 0.3·noise + 0.3·greenspace`. On a record
with components 100, 0, 0 the composite is 40 but the projection is
100/3 ≈ 33.3. -/
theorem whatIfScore_equal_weights_bug :
    whatIfScore (some dC2) ⟨0, 0, 0⟩ = some (100 / 3) ∧
    2 / 5 * (100:ℚ) + 3 / 10 * 0 + 3 / 10 * 0 = 40 ∧
    ¬ ((100:ℚ) / 3 = 40) := by
  refine ⟨?_, by norm_num, by norm_num⟩
  norm_num [whatIfScore, toNumber, dC2]

/-! ## C5: a null component is coerced to zero, not treated as missing -/

/-- Claim C5, code bug: on a record whose air component score is null,
`whatIfScore` still produces a numeric projection — JavaScript coerces the
null score to 0 inside `score + delta` — and the radar chart likewise
projects 0 for the missing component, instead of treating the record as
insufficient data. -/
theorem whatIfScore_null_component_numeric :
    dC5.components.air.score = none ∧
    whatIfScore (some dC5) ⟨0, 0, 0⟩ = some 50 ∧
    (radarData (some dC5) ⟨0, 0, 0⟩).map RadarRow.whatif = [0, 60, 90] := by
  refine ⟨rfl, ?_, ?_⟩
  · norm_num [whatIfScore, toNumber, dC5]
  · norm_num [radarData, toNumber, dC5]

/-! ## C6: clamping of the what-if outputs -/

/-- Claim C6, counterexample: the radar chart's projected values are only
clamped from above (`Math.min(100, …)`): with greenspace score 0 (inside
`[0, 100]`) and slider delta −20 (inside `[−20, 20]`) the projected
greenspace value is −20, outside `[0, 100]`. -/
theorem radar_whatif_not_clamped_below :
    (radarData (some dC6) ⟨0, 0, -20⟩).map RadarRow.whatif = [50, 50, -20] ∧
    ¬ ((0:ℚ) ≤ -20) := by
  constructor
  · norm_num [radarData, toNumber, dC6]
  · norm_num

/-- Claim C6, amended: for component scores in `[0, 100]` and deltas in
`[−20, 20]`, the projected overall score of `whatIfScore` is clamped into
`[0, 100]` (each adjusted component is clamped before averaging), while
the radar chart's projected values are clamped only from above: they never
exceed 100 but can fall as low as −20. -/
theorem whatIf_clamped (d : DistrictRecord) (w : WhatIf)
    (hair : 0 ≤ toNumber d.components.air.score ∧
      toNumber d.components.air.score ≤ 100)
    (hnoise : 0 ≤ toNumber d.components.noise.score ∧
      toNumber d.components.noise.score ≤ 100)
    (hgreen : 0 ≤ toNumber d.components.greenspace.score ∧
      toNumber d.components.greenspace.score ≤ 100)
    (hwa : -20 ≤ w.air ∧ w.air ≤ 20)
    (hwn : -20 ≤ w.noise ∧ w.noise ≤ 20)
    (hwg : -20 ≤ w.greenspace ∧ w.greenspace ≤ 20) :
    (∀ v ∈ whatIfScore (some d) w, 0 ≤ v ∧ v ≤ 100) ∧
    (∀ r ∈ radarData (some d) w, r.whatif ≤ 100 ∧ -20 ≤ r.whatif) := by
  constructor
  · intro v hv
    simp only [whatIfScore, Option.mem_def, Option.some.injEq] at hv
    have b1 : (0:ℚ) ≤ min 100 (max 0 (toNumber d.components.air.score + w.air)) :=
      le_min (by norm_num) (le_max_left 0 _)
    have b2 : (0:ℚ) ≤ min 100 (max 0 (toNumber d.components.noise.score + w.noise)) :=
      le_min (by norm_num) (le_max_left 0 _)
    have b3 : (0:ℚ) ≤
        min 100 (max 0 (toNumber d.components.greenspace.score + w.greenspace)) :=
      le_min (by norm_num) (le_max_left 0 _)
    have c1 : min 100 (max 0 (toNumber d.components.air.score + w.air)) ≤ 100 :=
      min_le_left _ _
    have c2 : min 100 (max 0 (toNumber d.components.noise.score + w.noise)) ≤ 100 :=
      min_le_left _ _
    have c3 : min 100
        (max 0 (toNumber d.components.greenspace.score + w.greenspace)) ≤ 100 :=
      min_le_left _ _
    constructor
    · rw [← hv]; positivity
    · rw [← hv]; linarith
  · intro r hr
    simp only [radarData, List.mem_cons, List.not_mem_nil, or_false] at hr
    rcases hr with rfl | rfl | rfl
    · exact ⟨min_le_left _ _, le_min (by norm_num) (by linarith [hair.1, hwa.1])⟩
    · exact ⟨min_le_left _ _, le_min (by norm_num) (by linarith [hnoise.1, hwn.1])⟩
    · exact ⟨min_le_left _ _, le_min (by norm_num) (by linarith [hgreen.1, hwg.1])⟩

/-- Claim C6, witness: the clamping bounds at a concrete record and the
slider setting (0, 0, −20). -/
theorem whatIf_clamped_witness :
    (∀ v ∈ whatIfScore (some dC6) ⟨0, 0, -20⟩, 0 ≤ v ∧ v ≤ 100) ∧
    (∀ r ∈ radarData (some dC6) ⟨0, 0, -20⟩,
      RadarRow.whatif r ≤ 100 ∧ -20 ≤ RadarRow.whatif r) :=
  whatIf_clamped dC6 ⟨0, 0, -20⟩
    (by norm_num [dC6, toNumber]) (by norm_num [dC6, toNumber])
    (by norm_num [dC6, toNumber]) (by norm_num) (by norm_num) (by norm_num)

/-! ## C3: the three frontend threshold ladders -/

/-- Claim C3, counterexample: the ladders are not the same table. The
legacy `getScoreConfig` cuts at 80/60/45, so it cannot tell 80 from 85,
which the dashboard ladder distinguishes ("Very Good" vs "Excellent");
conversely `getMapColor` adds a cut at 35, distinguishing 40 from 30,
which the dashboard ladder lumps into one "High Risk" band. -/
theorem frontend_ladders_drift :
    getScoreConfig 80 = getScoreConfig 85 ∧
    ¬ ((getBand (some 80)).map Band.label = (getBand (some 85)).map Band.label) ∧
    (getBand (some 40)).map Band.label = (getBand (some 30)).map Band.label ∧
    ¬ (getMapColor 40 = getMapColor 30) := by
  refine ⟨by decide, ?_, by decide, by decide⟩
  decide

/-- The correspondence table the refinement statement compares against:
which `getMapColor` color each dashboard band label should produce. -/
def bandColorToMapColor (label : String) : String :=
  if label = "Excellent" then "#14532d"
  else if label = "Very Good" then "#16a34a"
  else if label = "Good" then "#4ade80"
  else if label = "Moderate" then "#facc15"
  else "#fb923c"

/-- Claim C3, amended: for scores of at least 45 the dashboard ladder
(`getBand`) and the legacy map ladder (`getMapColor`) do share the cut
points 85/75/65/55/45 — the map color is a function of the dashboard band.
Below 45 `getMapColor` adds its own cut at 35, and `getScoreConfig` uses
the different thresholds 80/60/45, so the three tables are not one shared
ladder. -/
theorem getMapColor_refines_getBand (s : ℚ) (h : (45:ℚ) ≤ s) :
    (getBand (some s)).map (fun b => bandColorToMapColor b.label) =
      some (getMapColor s) := by
  by_cases h85 : (85:ℚ) ≤ s <;> by_cases h75 : (75:ℚ) ≤ s <;>
    by_cases h65 : (65:ℚ) ≤ s <;> by_cases h55 : (55:ℚ) ≤ s <;>
    simp [getBand, BANDS, List.find?, getMapColor, bandColorToMapColor,
      h85, h75, h65, h55, h]

/-- Claim C3, witness: at score 70 the dashboard band "Good" corresponds
exactly to the legacy map color. -/
theorem getMapColor_refines_getBand_witness :
    (getBand (some 70)).map (fun b => bandColorToMapColor b.label) =
      some (getMapColor 70) :=
  getMapColor_refines_getBand 70 (by norm_num)

/-! ## C4: null scores in the aggregate views -/

/-- Claim C4, counterexample: the legacy view's average (App.jsx) does not
filter null scores — a null score coerces to 0 in the sum while the record
still counts in the denominator. Over one null-score area and one area at
80 the computed average is 40, not the 80 that excluding the null record
gives. -/
theorem appStats_counts_null_as_zero :
    (appStats [nullArea, scoredArea]).avgScore = 40 ∧
    (appStats (([nullArea, scoredArea]).filter fun a => a.score.isSome)).avgScore = 80 ∧
    ¬ ((40:ℤ) = 80) := by
  refine ⟨?_, ?_, by norm_num⟩
  · norm_num [appStats, toNumber, jsRound, nullArea, scoredArea]
  · norm_num [appStats, toNumber, jsRound, nullArea, scoredArea]

/-- Claim C4, amended: the baseline dashboard's aggregates do exclude null
scores — `validDistricts` drops a null-score record, `cityStats` (average,
best, worst) is unchanged by adding one, and the record still appears in
the sorted district listing. The legacy App view's average has no such
filter and counts a null score as zero. -/
theorem cityStats_ignores_null (ds : List DistrictRecord) (d : DistrictRecord)
    (h : d.score_overall = none) :
    validDistricts (d :: ds) = validDistricts ds ∧
    cityStats (d :: ds) = cityStats ds ∧
    d ∈ sortedDistricts (d :: ds) := by
  have hvd : validDistricts (d :: ds) = validDistricts ds := by
    simp [validDistricts, List.filter_cons, h]
  refine ⟨hvd, ?_, ?_⟩
  · unfold cityStats
    rw [hvd]
  · simp [sortedDistricts, List.mem_mergeSort]

/-- Claim C4, witness: adding the null-score record `dNull` to `[dOk]`
leaves every aggregate unchanged while `dNull` stays listed. -/
theorem cityStats_ignores_null_witness :
    validDistricts (dNull :: [dOk]) = validDistricts [dOk] ∧
    cityStats (dNull :: [dOk]) = cityStats [dOk] ∧
    dNull ∈ sortedDistricts (dNull :: [dOk]) :=
  cityStats_ignores_null [dOk] dNull rfl

/-! ## C7: the loading hook's binary outcome -/

/-- Claim C7: once loading is false, `useBaselineData` is in exactly one
of two states — no error and the parsed records (a non-array body giving
the empty array), or an error and the empty array. Every fetch outcome
lands in one of these, so the UI only ever sees "data present" or "data
unavailable". -/
theorem useBaselineData_binary_outcome (r : FetchOutcome) :
    (useBaselineData r).loading = false ∧
    match r with
    | FetchOutcome.netError m =>
        (useBaselineData r).error = some m ∧ (useBaselineData r).data = []
    | FetchOutcome.httpError status =>
        (useBaselineData r).error =
          some ("Failed to load baseline (" ++ toString status ++ ")") ∧
        (useBaselineData r).data = []
    | FetchOutcome.parseError m =>
        (useBaselineData r).error = some m ∧ (useBaselineData r).data = []
    | FetchOutcome.body (JsonBody.array records) =>
        (useBaselineData r).error = none ∧ (useBaselineData r).data = records
    | FetchOutcome.body JsonBody.notArray =>
        (useBaselineData r).error = none ∧ (useBaselineData r).data = [] := by
  cases r with
  | netError m => exact ⟨rfl, rfl, rfl⟩
  | httpError status => exact ⟨rfl, rfl, rfl⟩
  | parseError m => exact ⟨rfl, rfl, rfl⟩
  | body j => cases j with
    | array records => exact ⟨rfl, rfl, rfl⟩
    | notArray => exact ⟨rfl, rfl, rfl⟩

/-! ## C8: determinism of the score-derived presentation -/

/-- Claim C8: `getBand`, `getColor`, `getScoreConfig` and `getMapColor`
are pure functions of the score — equal inputs give identical outputs, and
a full rendering pass over equal baselines yields identical derived
values. -/
theorem score_views_deterministic (s₁ s₂ : Option ℚ) (t₁ t₂ : ℚ)
    (ds₁ ds₂ : List DistrictRecord)
    (hs : s₁ = s₂) (ht : t₁ = t₂) (hds : ds₁ = ds₂) :
    getBand s₁ = getBand s₂ ∧ getColor s₁ = getColor s₂ ∧
    getScoreConfig t₁ = getScoreConfig t₂ ∧ getMapColor t₁ = getMapColor t₂ ∧
    renderPass ds₁ = renderPass ds₂ := by
  subst hs; subst ht; subst hds
  exact ⟨rfl, rfl, rfl, rfl, rfl⟩

/-- Claim C8, witness: the determinism equalities at a concrete score and
a concrete one-record baseline. -/
theorem score_views_deterministic_witness :
    getBand (some 61) = getBand (some 61) ∧
    getColor (some 61) = getColor (some 61) ∧
    getScoreConfig 61 = getScoreConfig 61 ∧ getMapColor 61 = getMapColor 61 ∧
    renderPass [dC8] = renderPass [dC8] :=
  score_views_deterministic (some 61) (some 61) 61 61 [dC8] [dC8] rfl rfl rfl

/-! ## C9: totality and sentinels at the rendering boundary -/

/-- Claim C9: the map and formatting layer is total. A feature whose
postcode matches no district gets the sentinel fill `"#020617"` in every
mode; a null score gets the sentinel color, no band, and the en dash from
`format`; a numeric score is first clamped into `[0, 100]` before the hue
is computed. -/
theorem map_rendering_total (ds : List DistrictRecord) (pc : String) (m : Mode)
    (q : ℚ) (hmiss : findDistrict ds pc = none) :
    geoFillColor ds pc m = CssColor.hex "#020617" ∧
    modeScore m (findDistrict ds pc) = none ∧
    getColor none = CssColor.hex "#020617" ∧
    getBand none = none ∧
    format none 1 = "–" ∧
    getColor (some q) = CssColor.hsl (max 0 (min 100 q) / 100 * 120) 75 45 ∧
    0 ≤ max 0 (min 100 q) ∧ max 0 (min 100 q) ≤ 100 := by
  have hms : modeScore m (findDistrict ds pc) = none := by
    rw [hmiss]; cases m <;> rfl
  refine ⟨?_, hms, rfl, rfl, rfl, rfl, le_max_left 0 _, ?_⟩
  · unfold geoFillColor
    rw [hms]
    rfl
  · exact max_le (by norm_num) (min_le_left _ _)

/-- Claim C9, witness: the empty baseline matches no postcode, and the
out-of-range score 150 clamps to 100. -/
theorem map_rendering_total_witness :
    geoFillColor [] "B00" Mode.overall = CssColor.hex "#020617" ∧
    modeScore Mode.overall (findDistrict [] "B00") = none ∧
    getColor none = CssColor.hex "#020617" ∧
    getBand none = none ∧
    format none 1 = "–" ∧
    getColor (some 150) = CssColor.hsl (max 0 (min 100 150) / 100 * 120) 75 45 ∧
    0 ≤ max 0 (min 100 (150:ℚ)) ∧ max 0 (min 100 (150:ℚ)) ≤ 100 :=
  map_rendering_total [] "B00" Mode.overall 150 rfl

/-! ## C10: the comparison-selection invariant -/

/-- The invariant of the comparison list: it never holds the selected
district and never more than 4 entries. -/
def CompareInv (selected : Option String) (l : List String) : Prop :=
  (∀ s, selected = some s → s ∉ l) ∧ l.length ≤ 4

theorem compareInv_toggle (selected : Option String) (l : List String)
    (c : String) (h : CompareInv selected l) :
    CompareInv selected (toggleCompare selected l c) := by
  obtain ⟨hsel, hlen⟩ := h
  unfold toggleCompare
  split_ifs with h1 h2 h3
  · exact ⟨hsel, hlen⟩
  · refine ⟨?_, le_trans (List.length_filter_le _ _) hlen⟩
    intro s hs hmem
    exact hsel s hs (List.mem_of_mem_filter hmem)
  · exact ⟨hsel, hlen⟩
  · refine ⟨?_, ?_⟩
    · intro s hs hmem
      rcases List.mem_append.mp hmem with hm | hm
      · exact hsel s hs hm
      · rw [List.mem_singleton] at hm
        subst hm
        exact h1 hs.symm
    · rw [List.length_append]
      simp only [List.length_singleton]
      omega

theorem foldl_compareInv (selected : Option String) (ops : List String) :
    ∀ l, CompareInv selected l →
      CompareInv selected (ops.foldl (toggleCompare selected) l) := by
  induction ops with
  | nil => intro l h; exact h
  | cons c rest ih =>
    intro l h
    exact ih _ (compareInv_toggle selected l c h)

/-- Claim C10: from the empty comparison list, any sequence of
`toggleCompare` calls keeps the selected district out of the list and the
list at most 4 long; on such a reachable state, toggling a chosen district
removes it, and toggling a new district with 4 already chosen changes
nothing. -/
theorem toggleCompare_safe (selected : Option String) (s : String)
    (ops : List String) (c : String)
    (hsel : selected = some s) (hc : ¬ (some c = selected)) :
    s ∉ ops.foldl (toggleCompare selected) [] ∧
    (ops.foldl (toggleCompare selected) []).length ≤ 4 ∧
    (c ∈ ops.foldl (toggleCompare selected) [] →
      toggleCompare selected (ops.foldl (toggleCompare selected) []) c =
        (ops.foldl (toggleCompare selected) []).filter fun x => !(x == c)) ∧
    (¬ c ∈ ops.foldl (toggleCompare selected) [] →
      4 ≤ (ops.foldl (toggleCompare selected) []).length →
      toggleCompare selected (ops.foldl (toggleCompare selected) []) c =
        ops.foldl (toggleCompare selected) []) := by
  have hinv := foldl_compareInv selected ops []
    ⟨fun s _ hm => (List.not_mem_nil s hm).elim, by norm_num⟩
  obtain ⟨hs1, hs2⟩ := hinv
  refine ⟨hs1 s hsel, hs2, ?_, ?_⟩
  · intro hmem
    simp [toggleCompare, hc, hmem]
  · intro hnot hlen
    simp [toggleCompare, hc, hnot, hlen]

/-- Claim C10, witness: with "B1" selected, toggling B2, B3, B2 in turn
leaves a reachable list on which the theorem's guarantees hold for the
fresh district "B4". -/
theorem toggleCompare_safe_witness :
    "B1" ∉ ["B2", "B3", "B2"].foldl (toggleCompare (some "B1")) [] ∧
    (["B2", "B3", "B2"].foldl (toggleCompare (some "B1")) []).length ≤ 4 ∧
    ("B4" ∈ ["B2", "B3", "B2"].foldl (toggleCompare (some "B1")) [] →
      toggleCompare (some "B1")
          (["B2", "B3", "B2"].foldl (toggleCompare (some "B1")) []) "B4" =
        (["B2", "B3", "B2"].foldl (toggleCompare (some "B1")) []).filter
          fun x => !(x == "B4")) ∧
    (¬ "B4" ∈ ["B2", "B3", "B2"].foldl (toggleCompare (some "B1")) [] →
      4 ≤ (["B2", "B3", "B2"].foldl (toggleCompare (some "B1")) []).length →
      toggleCompare (some "B1")
          (["B2", "B3", "B2"].foldl (toggleCompare (some "B1")) []) "B4" =
        ["B2", "B3", "B2"].foldl (toggleCompare (some "B1")) []) :=
  toggleCompare_safe (some "B1") "B1" ["B2", "B3", "B2"] "B4" rfl (by decide)

end NSI
